import Mathlib

/-!
Shallow embedding of the farm-management backend (Flask/SQLAlchemy source)
into Lean 4, together with proofs about the role-scoped access control,
account verification state machine, OTP protocol and animal services.

Modelling conventions:
- Machine time (datetime.utcnow) is a Nat counting seconds; a validity window
  given in minutes is multiplied by 60.
- Database rows are entries of Lean lists inside a DB structure; the SQLAlchemy
  pattern Model.query.filter_by(...).first() becomes List.find?.
- Python service functions returning a (value, error_message) pair become
  SvcResult; HTTP endpoint handlers return a Response envelope, and mutating
  handlers also return the updated DB.
- A JSON field that may be absent is an Option; a date string field is an
  Option (Option Nat): none = absent or empty, some none = present but not
  parseable by strptime, some (some d) = present and parsing to day d.
- Python string truthiness (empty string is falsy) is modelled explicitly
  where the source relies on it.
-/

namespace Farm

/-- Model of app.models.user.UserRole. -/
inductive UserRole
  | farmer
  | veterinarian
  | admin
deriving DecidableEq, Repr

/-- Model of app.models.user.UserStatus. -/
inductive UserStatus
  | active
  | inactive
  | pending
  | suspended
deriving DecidableEq, Repr

/-- Model of str-to-enum conversion UserStatus(value) from users.py. -/
def UserStatus.ofString : String → Option UserStatus
  | "active" => some .active
  | "inactive" => some .inactive
  | "pending" => some .pending
  | "suspended" => some .suspended
  | _ => none

/-- Model of app.models.animal.AnimalSpecies. -/
inductive AnimalSpecies
  | cattle
  | buffalo
  | goat
  | sheep
  | poultry
  | swine
  | other
deriving DecidableEq, Repr

/-- Model of AnimalSpecies(value) used with a lowercased input string. -/
def AnimalSpecies.ofString : String → Option AnimalSpecies
  | "cattle" => some .cattle
  | "buffalo" => some .buffalo
  | "goat" => some .goat
  | "sheep" => some .sheep
  | "poultry" => some .poultry
  | "swine" => some .swine
  | "other" => some .other
  | _ => none

/-- Model of app.models.animal.Gender. -/
inductive Gender
  | male
  | female
deriving DecidableEq, Repr

/-- Model of Gender(value) used with a lowercased input string. -/
def Gender.ofString : String → Option Gender
  | "male" => some .male
  | "female" => some .female
  | _ => none

/-- Model of app.models.animal.HealthStatus. -/
inductive HealthStatus
  | healthy
  | sick
  | under_treatment
  | recovering
  | quarantine
  | deceased
deriving DecidableEq, Repr

/-- Model of HealthStatus(value) used with a lowercased input string. -/
def HealthStatus.ofString : String → Option HealthStatus
  | "healthy" => some .healthy
  | "sick" => some .sick
  | "under_treatment" => some .under_treatment
  | "recovering" => some .recovering
  | "quarantine" => some .quarantine
  | "deceased" => some .deceased
  | _ => none

/-- Model of app.models.animal.ProductionStatus. -/
inductive ProductionStatus
  | active
  | dry
  | pregnant
  | lactating
  | breeding
  | retired
deriving DecidableEq, Repr

/-- Model of ProductionStatus(value) used with a lowercased input string. -/
def ProductionStatus.ofString : String → Option ProductionStatus
  | "active" => some .active
  | "dry" => some .dry
  | "pregnant" => some .pregnant
  | "lactating" => some .lactating
  | "breeding" => some .breeding
  | "retired" => some .retired
  | _ => none

/-- Model of the users table row (app.models.user.User plus the soft-delete
fields inherited from BaseModel). The password field stands for the stored
credential; werkzeug hashing is external plumbing, so check_password is
modelled as comparison with the stored credential. -/
structure User where
  id : Nat
  name : String
  email : String
  phone : String
  password : String
  user_type : UserRole
  status : UserStatus
  email_verified : Bool
  phone_verified : Bool
  otp_code : Option String
  otp_created_at : Option Nat
  is_active : Bool
  deleted_at : Option Nat
deriving DecidableEq, Repr

/-- Model of User.check_password. -/
def User.check_password (u : User) (p : String) : Bool :=
  u.password == p

/-- Model of User.is_verified. -/
def User.is_verified (u : User) : Bool :=
  u.email_verified && u.phone_verified

/-- Model of User.can_login. -/
def User.can_login (u : User) : Bool :=
  decide (u.status = UserStatus.active) && u.is_verified

/-- Model of the animals table row (app.models.animal.Animal plus BaseModel
fields). Numeric columns are Nat in the model; date columns are day numbers. -/
structure Animal where
  id : Nat
  tag_id : String
  name : Option String
  species : AnimalSpecies
  breed : Option String
  gender : Gender
  age_months : Option Nat
  birth_date : Option Nat
  weight_kg : Option Nat
  height_cm : Option Nat
  color : Option String
  health_status : HealthStatus
  production_status : Option ProductionStatus
  farmer_id : Nat
  veterinarian_id : Option Nat
  purchase_date : Option Nat
  purchase_price : Option Nat
  source : Option String
  vaccination_status : Option String
  last_checkup_date : Option Nat
  daily_milk_yield : Option Nat
  lactation_number : Option Nat
  notes : Option String
  special_conditions : Option String
  is_active : Bool
  deleted_at : Option Nat
deriving DecidableEq, Repr

/-- Model of the health_records table row (app.models.animal.HealthRecord). -/
structure HealthRecord where
  id : Nat
  animal_id : Nat
  recorded_by_id : Nat
  checkup_date : Nat
  temperature : Option Nat
  weight_kg : Option Nat
  heart_rate : Option Nat
  respiratory_rate : Option Nat
  symptoms : Option String
  diagnosis : Option String
  treatment_given : Option String
  next_checkup_date : Option Nat
  recommendations : Option String
  overall_condition : Option HealthStatus
  notes : Option String
  is_active : Bool
deriving DecidableEq, Repr

/-- The relational store: users (all three roles live in the users table via
polymorphic inheritance), animals and health records. -/
structure DB where
  users : List User
  animals : List Animal
  health_records : List HealthRecord
deriving DecidableEq, Repr

/-- Model of Model.query.filter_by(id=..., is_active=True).first() on users. -/
def findActiveUser (db : DB) (uid : Nat) : Option User :=
  db.users.find? (fun u => decide (u.id = uid) && u.is_active)

/-- Model of Farmer.query.filter_by(id=..., is_active=True).first(): the join
against the farmers table restricts the row to user_type farmer. -/
def findActiveFarmer (db : DB) (uid : Nat) : Option User :=
  db.users.find? (fun u =>
    decide (u.id = uid) && u.is_active && decide (u.user_type = UserRole.farmer))

/-- Model of Veterinarian.query.filter_by(id=..., is_active=True).first(). -/
def findActiveVet (db : DB) (uid : Nat) : Option User :=
  db.users.find? (fun u =>
    decide (u.id = uid) && u.is_active && decide (u.user_type = UserRole.veterinarian))

/-- Model of Animal.query.filter_by(id=..., is_active=True).first(). -/
def findActiveAnimal (db : DB) (aid : Nat) : Option Animal :=
  db.animals.find? (fun a => decide (a.id = aid) && a.is_active)

/-- In-place row update, the effect of mutating an ORM object and committing:
every animal row with the given id is rewritten by f. -/
def DB.updateAnimal (db : DB) (aid : Nat) (f : Animal → Animal) : DB :=
  { db with animals := db.animals.map (fun a => if a.id = aid then f a else a) }

/-- In-place row update on the users table. -/
def DB.updateUser (db : DB) (uid : Nat) (f : User → User) : DB :=
  { db with users := db.users.map (fun u => if u.id = uid then f u else u) }

/-- Result of a Python service returning a (value, error_message) pair. -/
inductive SvcResult (α : Type)
  | ok (val : α)
  | err (msg : String)
deriving DecidableEq, Repr

/-- The standardized API response envelope from app.utils.helpers
create_response; the data payload is abstracted to its presence. -/
structure Response where
  success : Bool
  message : String
  hasData : Bool
  status_code : Nat
deriving DecidableEq, Repr

/-- Model of Python str.lower() restricted to ASCII letters, written over the
underlying character list so that it evaluates inside the kernel. -/
def lowerChar (c : Char) : Char :=
  if c.isUpper then Char.ofNat (c.toNat + 32) else c

/-- Model of Python str.lower() on a whole string. -/
def lowerAscii (s : String) : String :=
  ⟨s.data.map lowerChar⟩

/-- Model of Python str.strip(), written over the underlying character list so
that it evaluates inside the kernel. -/
def trimAscii (s : String) : String :=
  ⟨((s.data.dropWhile Char.isWhitespace).reverse.dropWhile Char.isWhitespace).reverse⟩

/-- Python truthiness plus strip-emptiness of an optional JSON string field,
as in validate_required_fields: the field counts as missing when absent,
falsy, or whitespace only. -/
def strPresent : Option String → Bool
  | none => false
  | some s => !(trimAscii s == "")

/-- Python truthiness of an optional JSON string field, as in the bare
animal_data.get checks: present and not the empty string. -/
def strTruthy : Option String → Bool
  | none => false
  | some s => !(s == "")

/-! Verification and OTP protocol, from app/utils/helpers.py and
app/auth/utils.py. -/

/-- Model of helpers.is_otp_valid: the code is valid while the current time is
strictly before created_at plus the validity window (minutes). -/
def is_otp_valid (created_at : Option Nat) (validity_minutes : Nat) (now : Nat) : Bool :=
  match created_at with
  | none => false
  | some t => decide (now < t + validity_minutes * 60)

/-- Model of auth.utils.verify_otp. The missing-code branch follows Python
truthiness: an empty stored code string also counts as no code. -/
def verify_otp (u : User) (provided_otp : String) (validity_minutes : Nat)
    (now : Nat) : Bool × String :=
  if !(strTruthy u.otp_code) || u.otp_created_at.isNone then
    (false, "No OTP found for this user")
  else if u.otp_code.getD "" ≠ provided_otp then
    (false, "Invalid OTP")
  else if !(is_otp_valid u.otp_created_at validity_minutes now) then
    (false, "OTP has expired")
  else
    (true, "OTP verified successfully")

/-- Refinement reference, written from the words of the spec only: validation
fails with Expired exactly when now minus issued_at strictly exceeds the
validity window, even when the stored code matches the provided one. -/
def verify_otp_expiry_spec (u : User) (validity_minutes : Nat) (now : Nat) : Bool :=
  match u.otp_created_at with
  | none => false
  | some t => decide (now - t > validity_minutes * 60)

/-- Model of auth.utils.generate_and_store_otp together with the commit: the
fresh code and issuance time are written onto the user row. -/
def generate_and_store_otp (users : List User) (uid : Nat) (otp : String)
    (now : Nat) : List User :=
  users.map (fun u =>
    if u.id = uid then { u with otp_code := some otp, otp_created_at := some now }
    else u)

/-- Model of auth.utils.clear_otp. -/
def clear_otp (u : User) : User :=
  { u with otp_code := none, otp_created_at := none }

/-- Model of auth.utils.verify_user_account: marks the requested channels
verified, then activates the user when both channels are verified. -/
def verify_user_account (u : User) (verification_type : String) : User :=
  let u1 := if verification_type = "email" ∨ verification_type = "both" then
    { u with email_verified := true } else u
  let u2 := if verification_type = "phone" ∨ verification_type = "both" then
    { u1 with phone_verified := true } else u1
  if u2.email_verified && u2.phone_verified then
    { u2 with status := UserStatus.active }
  else u2

/-- Model of auth.utils.authenticate_user. The lookup lowercases the email and
is scoped to rows with is_active true. -/
def authenticate_user (users : List User) (email password : String) :
    SvcResult User :=
  if email = "" ∨ password = "" then
    .err "Email and password are required"
  else
    match users.find? (fun u => decide (u.email = lowerAscii email) && u.is_active) with
    | none => .err "Invalid email or password"
    | some u =>
      if !(u.check_password password) then
        .err "Invalid email or password"
      else if !u.can_login then
        if u.status = UserStatus.pending then
          .err "Account is pending verification"
        else if u.status = UserStatus.inactive then
          .err "Account is inactive"
        else if u.status = UserStatus.suspended then
          .err "Account is suspended"
        else
          .err "Account verification required"
      else
        .ok u

/-! User service operations, from app/services/user_service.py, and the admin
status endpoint from app/api/users.py. -/

/-- Model of UserService.deactivate_user (the commit is the returned user):
sets the status to inactive and the soft-delete flag to false, and always
reports success. -/
def deactivate_user (u : User) : (Bool × String) × User :=
  ((true, "User account deactivated"),
   { u with status := UserStatus.inactive, is_active := false })

/-- Model of UserService.reactivate_user: restores Active for a fully verified
user, Pending otherwise, and resets the soft-delete flag. -/
def reactivate_user (u : User) : (Bool × String) × User :=
  ((true, "User account reactivated"),
   { u with
      status := if u.is_verified then UserStatus.active else UserStatus.pending,
      is_active := true })

/-- Model of the admin endpoint update_user_status from app/api/users.py: after
validating the status string and finding the active user, it writes the new
status and adjusts the soft-delete flag, with no verification-flag check. -/
def update_user_status (db : DB) (user_id : Nat) (data_status : Option String)
    : Response × DB :=
  if !(strPresent data_status) then
    (⟨false, "Missing required fields", false, 400⟩, db)
  else
    let ns := data_status.getD ""
    if !(ns ∈ ["active", "inactive", "pending", "suspended"]) then
      (⟨false, "Invalid status", false, 400⟩, db)
    else
      match findActiveUser db user_id with
      | none => (⟨false, "User not found", false, 404⟩, db)
      | some _ =>
        let db2 := db.updateUser user_id (fun u =>
          let u1 := { u with status := (UserStatus.ofString ns).getD u.status }
          if ns = "inactive" then { u1 with is_active := false }
          else if ns = "active" ∨ ns = "pending" then { u1 with is_active := true }
          else u1)
        (⟨true, "User status updated to " ++ ns, true, 200⟩, db2)

/-- Model of the forgot_password handler from app/auth/routes.py. The email
field is required; the lookup is scoped to active rows; a missing account
still yields a success response, but OTP issuance only happens for an
existing one. The data payload is abstracted to its presence. -/
def forgot_password (users : List User) (email_field : Option String)
    (otp : String) (now : Nat) : Response × List User :=
  if !(strPresent email_field) then
    (⟨false, "Missing required fields", false, 400⟩, users)
  else
    let email := trimAscii (lowerAscii (email_field.getD ""))
    match users.find? (fun u => decide (u.email = email) && u.is_active) with
    | none =>
      (⟨true, "If the email exists, a reset code has been sent", false, 200⟩, users)
    | some u =>
      (⟨true, "Password reset code sent", true, 200⟩,
       generate_and_store_otp users u.id otp now)

/-- The user invariant stated by the spec: Active status implies both
verification flags. -/
def UserActiveInvariant (u : User) : Prop :=
  u.status = UserStatus.active → u.email_verified = true ∧ u.phone_verified = true

instance (u : User) : Decidable (UserActiveInvariant u) := by
  unfold UserActiveInvariant
  infer_instance

/-! Animal service operations, from app/services/animal_service.py. -/

/-- The JSON body accepted by AnimalService.create_animal. String enums arrive
as raw strings; date fields use the Option (Option Nat) convention for
strptime results. Numeric fields that the service stores verbatim are Nat. -/
structure AnimalData where
  tag_id : Option String
  name : Option String
  species : Option String
  breed : Option String
  gender : Option String
  age_months : Option Nat
  birth_date : Option (Option Nat)
  weight_kg : Option Nat
  height_cm : Option Nat
  color : Option String
  health_status : Option String
  production_status : Option String
  purchase_date : Option (Option Nat)
  purchase_price : Option Nat
  source : Option String
  vaccination_status : Option String
  daily_milk_yield : Option Nat
  lactation_number : Option Nat
  notes : Option String
  special_conditions : Option String
deriving DecidableEq, Repr

/-- A JSON body with every field absent, for building small test inputs. -/
def AnimalData.empty : AnimalData :=
  ⟨none, none, none, none, none, none, none, none, none, none,
   none, none, none, none, none, none, none, none, none, none⟩

/-- Model of the data.get(field, some_default).strip() if data.get(field) else
None pattern: a truthy string is stripped, anything else becomes null. -/
def stripOrNone (o : Option String) : Option String :=
  if strTruthy o then some (trimAscii (o.getD "")) else none

/-- Model of AnimalService.create_animal together with the commit against the
schema. The fresh row id is a parameter (it stands for the uuid default of
BaseModel). Required fields are tag_id, species and gender; the service-level
duplicate-tag check is scoped to active animals of the same farmer; enum
inputs are lowercased before conversion. The animals table additionally
declares tag_id with a global UNIQUE constraint (models/animal.py, unique on
the column, soft-deleted rows included), so an insert whose stripped tag
collides with any existing row raises IntegrityError at db.session.commit();
the broad except rolls back and returns the generic creation failure. The
backend-specific exception text is modelled by a fixed constant. -/
def create_animal (data : AnimalData) (farmer_id : Nat) (fresh_id : Nat)
    (db : DB) : SvcResult Animal × DB :=
  let missing :=
    (if strPresent data.tag_id then [] else ["tag_id"]) ++
    (if strPresent data.species then [] else ["species"]) ++
    (if strPresent data.gender then [] else ["gender"])
  if missing ≠ [] then
    (.err ("Missing required fields: " ++ String.intercalate ", " missing), db)
  else
    match findActiveFarmer db farmer_id with
    | none => (.err "Farmer not found", db)
    | some _ =>
      match AnimalSpecies.ofString (lowerAscii (data.species.getD "")) with
      | none =>
        (.err "Invalid species. Must be one of: cattle, buffalo, goat, sheep, poultry, swine, other", db)
      | some species =>
        match Gender.ofString (lowerAscii (data.gender.getD "")) with
        | none => (.err "Invalid gender. Must be one of: male, female", db)
        | some gender =>
          match db.animals.find? (fun a =>
              decide (a.tag_id = data.tag_id.getD "") &&
              decide (a.farmer_id = farmer_id) && a.is_active) with
          | some _ =>
            (.err "An animal with this tag ID already exists for this farmer", db)
          | none =>
            let hsParsed :=
              if strTruthy data.health_status then
                HealthStatus.ofString (lowerAscii (data.health_status.getD ""))
              else some HealthStatus.healthy
            match hsParsed with
            | none =>
              (.err "Invalid health status. Must be one of: healthy, sick, under_treatment, recovering, quarantine, deceased", db)
            | some health_status =>
              let psParsed :=
                if strTruthy data.production_status then
                  (ProductionStatus.ofString
                    (lowerAscii (data.production_status.getD ""))).map some
                else some none
              match psParsed with
              | none =>
                (.err "Invalid production status. Must be one of: active, dry, pregnant, lactating, breeding, retired", db)
              | some production_status =>
                if data.birth_date = some none then
                  (.err "Invalid birth_date format. Use YYYY-MM-DD", db)
                else if data.purchase_date = some none then
                  (.err "Invalid purchase_date format. Use YYYY-MM-DD", db)
                else
                  let animal : Animal :=
                    { id := fresh_id
                      tag_id := trimAscii (data.tag_id.getD "")
                      name := stripOrNone data.name
                      species := species
                      breed := stripOrNone data.breed
                      gender := gender
                      age_months := data.age_months
                      birth_date := data.birth_date.getD none
                      weight_kg := data.weight_kg
                      height_cm := data.height_cm
                      color := stripOrNone data.color
                      health_status := health_status
                      production_status := production_status
                      farmer_id := farmer_id
                      veterinarian_id := none
                      purchase_date := data.purchase_date.getD none
                      purchase_price := data.purchase_price
                      source := stripOrNone data.source
                      vaccination_status := stripOrNone data.vaccination_status
                      last_checkup_date := none
                      daily_milk_yield := data.daily_milk_yield
                      lactation_number := data.lactation_number
                      notes := stripOrNone data.notes
                      special_conditions := stripOrNone data.special_conditions
                      is_active := true
                      deleted_at := none }
                  if db.animals.any (fun a => decide (a.tag_id = animal.tag_id)) then
                    (.err "Failed to create animal: UNIQUE constraint failed: animals.tag_id", db)
                  else
                    (.ok animal, { db with animals := db.animals ++ [animal] })

/-- Model of AnimalService.assign_veterinarian: active-animal lookup, then
active-row veterinarian lookup, then the status check, then the write. -/
def assign_veterinarian (animal_id vet_id : Nat) (db : DB) :
    SvcResult Animal × DB :=
  match findActiveAnimal db animal_id with
  | none => (.err "Animal not found", db)
  | some a =>
    match findActiveVet db vet_id with
    | none => (.err "Veterinarian not found", db)
    | some vet =>
      if vet.status ≠ UserStatus.active then
        (.err "Veterinarian is not active", db)
      else
        (.ok { a with veterinarian_id := some vet_id },
         db.updateAnimal animal_id (fun x => { x with veterinarian_id := some vet_id }))

/-- The JSON body of HealthRecord creation accepted by
AnimalService.create_health_record. -/
structure HealthRecordData where
  animal_id : Option Nat
  checkup_date : Option (Option Nat)
  temperature : Option Nat
  weight_kg : Option Nat
  heart_rate : Option Nat
  respiratory_rate : Option Nat
  symptoms : Option String
  diagnosis : Option String
  treatment_given : Option String
  next_checkup_date : Option (Option Nat)
  recommendations : Option String
  overall_condition : Option String
  notes : Option String
deriving DecidableEq, Repr

/-- A health-record body with every field absent. -/
def HealthRecordData.empty : HealthRecordData :=
  ⟨none, none, none, none, none, none, none, none, none, none, none, none, none⟩

/-- Model of AnimalService.create_health_record. The today parameter stands
for date.today(), fresh_id for the uuid row id, and commit_ok for the success
of db.session.commit(): when the commit raises, the session is rolled back and
neither the record insert nor the animal update persists. When an
overall_condition is given, the parent animal health_status and
last_checkup_date are written in the same commit as the record insert. -/
def create_health_record (data : HealthRecordData) (recorded_by_user_id : Nat)
    (today fresh_id : Nat) (commit_ok : Bool) (db : DB) :
    SvcResult HealthRecord × DB :=
  match data.animal_id with
  | none => (.err "Missing required fields: animal_id", db)
  | some aid =>
    match findActiveAnimal db aid with
    | none => (.err "Animal not found", db)
    | some _ =>
      if data.checkup_date = some none then
        (.err "Invalid checkup_date format. Use YYYY-MM-DD", db)
      else if data.next_checkup_date = some none then
        (.err "Invalid next_checkup_date format. Use YYYY-MM-DD", db)
      else
        let checkup_date := (data.checkup_date.getD none).getD today
        let ocParsed :=
          if strTruthy data.overall_condition then
            (HealthStatus.ofString (lowerAscii (data.overall_condition.getD ""))).map some
          else some none
        match ocParsed with
        | none =>
          (.err "Invalid overall_condition. Must be one of: healthy, sick, under_treatment, recovering, quarantine, deceased", db)
        | some overall_condition =>
          let record : HealthRecord :=
            { id := fresh_id
              animal_id := aid
              recorded_by_id := recorded_by_user_id
              checkup_date := checkup_date
              temperature := data.temperature
              weight_kg := data.weight_kg
              heart_rate := data.heart_rate
              respiratory_rate := data.respiratory_rate
              symptoms := stripOrNone data.symptoms
              diagnosis := stripOrNone data.diagnosis
              treatment_given := stripOrNone data.treatment_given
              next_checkup_date := data.next_checkup_date.getD none
              recommendations := stripOrNone data.recommendations
              overall_condition := overall_condition
              notes := stripOrNone data.notes
              is_active := true }
          if !commit_ok then
            (.err "Failed to create health record: commit failed", db)
          else
            let db2 := { db with health_records := record :: db.health_records }
            let db3 :=
              match overall_condition with
              | some cond =>
                db2.updateAnimal aid (fun a =>
                  { a with health_status := cond, last_checkup_date := some checkup_date })
              | none => db2
            (.ok record, db3)

/-- Model of AnimalService.deactivate_animal; the lookup is scoped to active
rows, and soft_delete from BaseModel sets the flag and the deletion time. -/
def deactivate_animal (animal_id : Nat) (now : Nat) (db : DB) :
    SvcResult Animal × DB :=
  match findActiveAnimal db animal_id with
  | none => (.err "Animal not found", db)
  | some a =>
    (.ok { a with is_active := false, deleted_at := some now },
     db.updateAnimal animal_id (fun x => { x with is_active := false, deleted_at := some now }))

/-- The JSON body accepted by AnimalService.update_animal_profile, restricted
to the whitelisted updatable fields; keys outside the whitelist are ignored by
the source loop and therefore not represented. A field explicitly set to a
Python-falsy value (null or empty string), which the source would write raw
onto an enum column, is not modelled. -/
structure UpdateData where
  name : Option String
  breed : Option String
  weight_kg : Option Nat
  height_cm : Option Nat
  color : Option String
  health_status : Option String
  production_status : Option String
  daily_milk_yield : Option Nat
  lactation_number : Option Nat
  vaccination_status : Option String
  notes : Option String
  special_conditions : Option String
deriving DecidableEq, Repr

/-- An update body with every field absent. -/
def UpdateData.empty : UpdateData :=
  ⟨none, none, none, none, none, none, none, none, none, none, none, none⟩

/-- The field-update loop of AnimalService.update_animal_profile: applies each
present whitelisted field; an enum field with an unrecognized value is skipped
(the continue branch); returns the updated animal and the updated_fields
list. -/
def applyUpdates (a0 : Animal) (d : UpdateData) : Animal × List String :=
  let s0 : Animal × List String := (a0, [])
  let s1 := match d.name with
    | some v => ({ s0.1 with name := some v }, s0.2 ++ ["name"])
    | none => s0
  let s2 := match d.breed with
    | some v => ({ s1.1 with breed := some v }, s1.2 ++ ["breed"])
    | none => s1
  let s3 := match d.weight_kg with
    | some v => ({ s2.1 with weight_kg := some v }, s2.2 ++ ["weight_kg"])
    | none => s2
  let s4 := match d.height_cm with
    | some v => ({ s3.1 with height_cm := some v }, s3.2 ++ ["height_cm"])
    | none => s3
  let s5 := match d.color with
    | some v => ({ s4.1 with color := some v }, s4.2 ++ ["color"])
    | none => s4
  let s6 := match d.health_status with
    | some v =>
      match HealthStatus.ofString (lowerAscii v) with
      | some hs => ({ s5.1 with health_status := hs }, s5.2 ++ ["health_status"])
      | none => s5
    | none => s5
  let s7 := match d.production_status with
    | some v =>
      match ProductionStatus.ofString (lowerAscii v) with
      | some ps => ({ s6.1 with production_status := some ps }, s6.2 ++ ["production_status"])
      | none => s6
    | none => s6
  let s8 := match d.daily_milk_yield with
    | some v => ({ s7.1 with daily_milk_yield := some v }, s7.2 ++ ["daily_milk_yield"])
    | none => s7
  let s9 := match d.lactation_number with
    | some v => ({ s8.1 with lactation_number := some v }, s8.2 ++ ["lactation_number"])
    | none => s8
  let s10 := match d.vaccination_status with
    | some v => ({ s9.1 with vaccination_status := some v }, s9.2 ++ ["vaccination_status"])
    | none => s9
  let s11 := match d.notes with
    | some v => ({ s10.1 with notes := some v }, s10.2 ++ ["notes"])
    | none => s10
  match d.special_conditions with
  | some v => ({ s11.1 with special_conditions := some v }, s11.2 ++ ["special_conditions"])
  | none => s11

/-- Model of AnimalService.update_animal_profile, returning the Python
(value, message) pair verbatim. -/
def update_animal_profile (animal_id : Nat) (d : UpdateData) (db : DB) :
    (Option Animal × String) × DB :=
  match findActiveAnimal db animal_id with
  | none => ((none, "Animal not found"), db)
  | some a =>
    let res := applyUpdates a d
    if res.2 ≠ [] then
      ((some res.1, "Animal profile updated: " ++ String.intercalate ", " res.2),
       db.updateAnimal animal_id (fun x => (applyUpdates x d).1))
    else
      ((none, "No valid fields to update"), db)

/-! Animal endpoint handlers, from app/api/animals.py. The actor is the
authenticated user produced by the auth_required decorator. -/

/-- Model of the GET animal detail handler get_animal: active-row lookup, then
the per-role ownership check, then the payload. -/
def get_animal (db : DB) (actor : User) (animal_id : Nat) : Response :=
  match findActiveAnimal db animal_id with
  | none => ⟨false, "Animal not found", false, 404⟩
  | some a =>
    if actor.user_type = UserRole.farmer ∧ a.farmer_id ≠ actor.id then
      ⟨false, "Access denied", false, 403⟩
    else if actor.user_type = UserRole.veterinarian ∧ a.veterinarian_id ≠ some actor.id then
      ⟨false, "Access denied", false, 403⟩
    else
      ⟨true, "Animal retrieved successfully", true, 200⟩

/-- Model of the PUT animal handler update_animal: lookup, ownership check,
body check, then the profile-update service. -/
def update_animal (db : DB) (actor : User) (animal_id : Nat)
    (data : Option UpdateData) : Response × DB :=
  match findActiveAnimal db animal_id with
  | none => (⟨false, "Animal not found", false, 404⟩, db)
  | some a =>
    if actor.user_type = UserRole.farmer ∧ a.farmer_id ≠ actor.id then
      (⟨false, "Access denied", false, 403⟩, db)
    else if actor.user_type = UserRole.veterinarian ∧ a.veterinarian_id ≠ some actor.id then
      (⟨false, "Access denied", false, 403⟩, db)
    else
      match data with
      | none => (⟨false, "No data provided", false, 400⟩, db)
      | some d =>
        let res := update_animal_profile animal_id d db
        match res.1.1 with
        | some _ => (⟨true, res.1.2, true, 200⟩, res.2)
        | none => (⟨false, res.1.2, false, 400⟩, res.2)

/-- Model of the assign-vet handler assign_veterinarian from the API layer:
role gate, lookup, farmer ownership check, required veterinarian_id field,
then the assignment service. -/
def assign_veterinarian_endpoint (db : DB) (actor : User) (animal_id : Nat)
    (data_vet_id : Option Nat) : Response × DB :=
  if actor.user_type ≠ UserRole.farmer ∧ actor.user_type ≠ UserRole.admin then
    (⟨false, "Only farmers and admins can assign veterinarians", false, 403⟩, db)
  else
    match findActiveAnimal db animal_id with
    | none => (⟨false, "Animal not found", false, 404⟩, db)
    | some a =>
      if actor.user_type = UserRole.farmer ∧ a.farmer_id ≠ actor.id then
        (⟨false, "Access denied", false, 403⟩, db)
      else
        match data_vet_id with
        | none => (⟨false, "Missing required fields", false, 400⟩, db)
        | some vet_id =>
          let res := assign_veterinarian animal_id vet_id db
          match res.1 with
          | .ok _ => (⟨true, "Veterinarian assigned successfully", true, 200⟩, res.2)
          | .err m => (⟨false, m, false, 400⟩, res.2)

/-- Model of the DELETE animal handler delete_animal: role gate, lookup,
farmer ownership check, then the soft-delete service. -/
def delete_animal (db : DB) (actor : User) (animal_id : Nat) (now : Nat) :
    Response × DB :=
  if actor.user_type ≠ UserRole.farmer ∧ actor.user_type ≠ UserRole.admin then
    (⟨false, "Only farmers and admins can delete animals", false, 403⟩, db)
  else
    match findActiveAnimal db animal_id with
    | none => (⟨false, "Animal not found", false, 404⟩, db)
    | some a =>
      if actor.user_type = UserRole.farmer ∧ a.farmer_id ≠ actor.id then
        (⟨false, "Access denied", false, 403⟩, db)
      else
        let res := deactivate_animal animal_id now db
        match res.1 with
        | .ok _ => (⟨true, "Animal deactivated successfully", false, 200⟩, res.2)
        | .err m => (⟨false, m, false, 500⟩, res.2)

/-! Concrete fixtures used by witnesses and counterexamples. -/

/-- A baseline user row for building concrete test inputs. -/
def baseUser : User :=
  { id := 1
    name := "Asha"
    email := "a@x.com"
    phone := "9876543210"
    password := "Abcd1234!"
    user_type := UserRole.farmer
    status := UserStatus.pending
    email_verified := false
    phone_verified := false
    otp_code := none
    otp_created_at := none
    is_active := true
    deleted_at := none }

/-- A baseline animal row for building concrete test inputs. -/
def baseAnimal : Animal :=
  { id := 10
    tag_id := "COW001"
    name := some "Gauri"
    species := AnimalSpecies.cattle
    breed := none
    gender := Gender.female
    age_months := none
    birth_date := none
    weight_kg := none
    height_cm := none
    color := none
    health_status := HealthStatus.healthy
    production_status := none
    farmer_id := 1
    veterinarian_id := none
    purchase_date := none
    purchase_price := none
    source := none
    vaccination_status := none
    last_checkup_date := none
    daily_milk_yield := none
    lactation_number := none
    notes := none
    special_conditions := none
    is_active := true
    deleted_at := none }

/-- A user holding a stored OTP issued at time 0, for the OTP theorems. -/
def otpUser : User :=
  { baseUser with otp_code := some "123456", otp_created_at := some 0 }

/-- A fully verified active farmer, for the login and invariant theorems. -/
def activeUser : User :=
  { baseUser with
      status := UserStatus.active, email_verified := true, phone_verified := true }

/-- A store holding the single pending unverified user, for the admin
status-update theorems. -/
def dbC1 : DB := { users := [baseUser], animals := [], health_records := [] }

/-- A store holding one farmer and one active animal owned by that farmer. -/
def dbAnimal : DB := { users := [baseUser], animals := [baseAnimal], health_records := [] }

/-- A store whose only animal is already soft-deleted. -/
def dbAnimalInactive : DB :=
  { users := [baseUser]
    animals := [{ baseAnimal with is_active := false, deleted_at := some 5 }]
    health_records := [] }

/-- A second farmer, distinct from the owner of baseAnimal. -/
def otherFarmer : User :=
  { baseUser with id := 2, email := "c@z.com", phone := "9876500000" }

/-- An active verified veterinarian. -/
def vetUser : User :=
  { baseUser with
      id := 3, email := "v@x.com", phone := "9876511111",
      user_type := UserRole.veterinarian,
      status := UserStatus.active, email_verified := true, phone_verified := true }

/-- A veterinarian still in Pending status. -/
def pendingVet : User :=
  { vetUser with
      id := 4, email := "w@x.com", phone := "9876522222",
      status := UserStatus.pending, email_verified := false, phone_verified := false }

/-- A store with a farmer, two veterinarians and one animal, for the
assignment theorems. -/
def dbVets : DB :=
  { users := [baseUser, vetUser, pendingVet], animals := [baseAnimal], health_records := [] }

/-- A store holding the two farmers and no animals. -/
def dbTwoFarmers : DB :=
  { users := [baseUser, otherFarmer], animals := [], health_records := [] }

/-- A creation body for an animal tagged COW001. -/
def cowData : AnimalData :=
  { AnimalData.empty with
      tag_id := some "COW001", species := some "cattle", gender := some "female" }

/-- The animal that the first COW001 creation yields for farmer 1. -/
def cowAnimal1 : Animal := { baseAnimal with id := 100, name := none }

/-- A health-record body that sets overall_condition sick for animal 10. -/
def sickData : HealthRecordData :=
  { HealthRecordData.empty with animal_id := some 10, overall_condition := some "sick" }

/-- The health record produced by the sickData creation fixture. -/
def hrC3 : HealthRecord :=
  { id := 500, animal_id := 10, recorded_by_id := 3, checkup_date := 20
    temperature := none, weight_kg := none, heart_rate := none
    respiratory_rate := none, symptoms := none, diagnosis := none
    treatment_given := none, next_checkup_date := none, recommendations := none
    overall_condition := some HealthStatus.sick, notes := none, is_active := true }

/-! Claim C4: OTP validation outcome taxonomy and the expiry boundary. -/

/-- C4 counterexample: at exactly the end of the 10-minute signup window
(issued at 0, validated at 600 seconds) with a matching stored code, the code
reports the OTP expired, while the claim says expiry happens only when
now minus issued_at strictly exceeds the window, so the claim predicts a
success at this instant; the spec-following expiry predicate is false here. -/
theorem c4_otp_expiry_boundary_counterexample :
    verify_otp otpUser "123456" 10 600 = (false, "OTP has expired") ∧
    verify_otp_expiry_spec otpUser 10 600 = false := by
  exact ⟨rfl, rfl⟩

/-- C4 (amended): OTP validation fails with the no-code outcome when no code
(or no issuance time) is stored, fails with the mismatch outcome when the
stored code differs from the provided one, fails with the expired outcome
exactly when now is at least issued_at plus the validity window (in minutes)
even when the code matches, and succeeds otherwise. -/
theorem c4_verify_otp_outcomes (u : User) (code : String) (w now : Nat) :
    ((u.otp_code = none ∨ u.otp_code = some "" ∨ u.otp_created_at = none) →
      verify_otp u code w now = (false, "No OTP found for this user")) ∧
    (∀ c t, u.otp_code = some c → c ≠ "" → u.otp_created_at = some t →
      (c ≠ code → verify_otp u code w now = (false, "Invalid OTP")) ∧
      (c = code → now ≥ t + w * 60 →
        verify_otp u code w now = (false, "OTP has expired")) ∧
      (c = code → now < t + w * 60 →
        verify_otp u code w now = (true, "OTP verified successfully"))) := by
  unfold verify_otp
  constructor
  · rintro (h | h | h) <;>
      simp [h, strTruthy, Option.isNone]
  · intro c t hc hce ht
    refine ⟨?_, ?_, ?_⟩
    · intro hne
      simp [hc, ht, strTruthy, hce, hne]
    · intro heq hge
      subst heq
      simp [hc, ht, strTruthy, hce, is_otp_valid, Nat.not_lt.mpr hge]
    · intro heq hlt
      subst heq
      simp [hc, ht, strTruthy, hce, is_otp_valid, hlt]

/-- C4 witness: the four outcomes observed on concrete inputs through the
amended theorem. -/
theorem c4_verify_otp_outcomes_witness :
    verify_otp baseUser "123456" 10 0 = (false, "No OTP found for this user") ∧
    verify_otp otpUser "999999" 10 0 = (false, "Invalid OTP") ∧
    verify_otp otpUser "123456" 10 700 = (false, "OTP has expired") ∧
    verify_otp otpUser "123456" 10 60 = (true, "OTP verified successfully") := by
  refine ⟨?_, ?_, ?_, ?_⟩
  · exact (c4_verify_otp_outcomes baseUser "123456" 10 0).1 (Or.inl rfl)
  · exact ((c4_verify_otp_outcomes otpUser "999999" 10 0).2 "123456" 0 rfl
      (by decide) rfl).1 (by decide)
  · exact ((c4_verify_otp_outcomes otpUser "123456" 10 700).2 "123456" 0 rfl
      (by decide) rfl).2.1 rfl (by norm_num)
  · exact ((c4_verify_otp_outcomes otpUser "123456" 10 60).2 "123456" 0 rfl
      (by decide) rfl).2.2 rfl (by norm_num)

/-! Claim C9: login succeeds exactly for verified Active users; failure
reasons are status specific. -/

/-- C9: for a user found by the active-scoped email lookup whose password
check succeeds, login succeeds if and only if the status is Active and both
email and phone are verified; otherwise the failure reason is determined by
the status: a pending-verification message for Pending, an inactive message
for Inactive and a suspended message for Suspended, never a generic error
collapsing these cases. -/
theorem c9_login_iff_verified_active (users : List User) (email password : String)
    (u : User) (he : email ≠ "") (hp : password ≠ "")
    (hfind : users.find? (fun v => decide (v.email = lowerAscii email) && v.is_active) = some u)
    (hpw : u.check_password password = true) :
    (authenticate_user users email password = .ok u ↔
      u.status = UserStatus.active ∧ u.email_verified = true ∧ u.phone_verified = true) ∧
    (u.status = UserStatus.pending →
      authenticate_user users email password = .err "Account is pending verification") ∧
    (u.status = UserStatus.inactive →
      authenticate_user users email password = .err "Account is inactive") ∧
    (u.status = UserStatus.suspended →
      authenticate_user users email password = .err "Account is suspended") := by
  have hcan : (u.can_login = true) ↔
      (u.status = UserStatus.active ∧ u.email_verified = true ∧ u.phone_verified = true) := by
    simp [User.can_login, User.is_verified]
  by_cases hcl : u.can_login = true
  · obtain ⟨hs, hev, hpv⟩ := hcan.mp hcl
    simp [authenticate_user, he, hp, hfind, hpw, hcl, hs, hev, hpv]
  · have hcl2 : u.can_login = false := by
      revert hcl
      cases u.can_login <;> simp
    have hns : ¬(u.status = UserStatus.active ∧ u.email_verified = true ∧
        u.phone_verified = true) := fun h => hcl (hcan.mpr h)
    refine ⟨?_, ?_, ?_, ?_⟩
    · apply iff_of_false
      · cases hstat : u.status <;>
          simp [authenticate_user, he, hp, hfind, hpw, hcl2, hstat]
      · exact hns
    · intro h
      simp [authenticate_user, he, hp, hfind, hpw, hcl2, h]
    · intro h
      simp [authenticate_user, he, hp, hfind, hpw, hcl2, h]
    · intro h
      simp [authenticate_user, he, hp, hfind, hpw, hcl2, h]

/-- C9 witness: a pending unverified user fails with the pending-verification
reason, and a verified Active user logs in successfully. -/
theorem c9_login_witness :
    authenticate_user [baseUser] "a@x.com" "Abcd1234!" =
      .err "Account is pending verification" ∧
    authenticate_user [activeUser] "a@x.com" "Abcd1234!" = .ok activeUser := by
  constructor
  · exact (c9_login_iff_verified_active [baseUser] "a@x.com" "Abcd1234!" baseUser
      (by decide) (by decide) (by decide) (by decide)).2.1 rfl
  · exact (c9_login_iff_verified_active [activeUser] "a@x.com" "Abcd1234!" activeUser
      (by decide) (by decide) (by decide) (by decide)).1.mpr ⟨rfl, rfl, rfl⟩

/-! Claim C10: reactivation restores Active only for fully verified users. -/

/-- C10: reactivating a deactivated user restores status Active exactly when
both email_verified and phone_verified are true; an unverified user is
restored to Pending; in particular reactivation never produces an Active but
unverified user, and the soft-delete flag is reset. -/
theorem c10_reactivate_respects_verification (u : User) :
    ((reactivate_user u).2.status = UserStatus.active ↔
      u.email_verified = true ∧ u.phone_verified = true) ∧
    (u.is_verified = false → (reactivate_user u).2.status = UserStatus.pending) ∧
    (reactivate_user u).2.is_active = true ∧
    ((reactivate_user u).2.status = UserStatus.active →
      (reactivate_user u).2.email_verified = true ∧
      (reactivate_user u).2.phone_verified = true) := by
  cases hev : u.email_verified <;> cases hpv : u.phone_verified <;>
    simp [reactivate_user, User.is_verified, hev, hpv]

/-- C10 witness: the unverified pending fixture is restored to Pending, the
verified fixture to Active. -/
theorem c10_reactivate_witness :
    (reactivate_user baseUser).2.status = UserStatus.pending ∧
    (reactivate_user activeUser).2.status = UserStatus.active := by
  constructor
  · exact (c10_reactivate_respects_verification baseUser).2.1 rfl
  · exact (c10_reactivate_respects_verification activeUser).1.mpr ⟨rfl, rfl⟩

/-! Claim C1: which operations preserve the Active-implies-verified invariant. -/

/-- C1 counterexample: the admin status-update endpoint sets status Active on
a pending user whose verification flags are both false; the invariant that
Active implies email_verified and phone_verified holds before the call and is
broken by it, so not every operation that sets Active preserves it. -/
theorem c1_admin_status_update_breaks_invariant :
    UserActiveInvariant baseUser ∧
    (update_user_status dbC1 1 (some "active")).1.success = true ∧
    (update_user_status dbC1 1 (some "active")).2.users =
      [{ baseUser with status := UserStatus.active }] ∧
    ¬ UserActiveInvariant { baseUser with status := UserStatus.active } := by
  refine ⟨by decide, rfl, by decide, by decide⟩

/-- C1 (amended): account verification (verify_user_account) and reactivation
(reactivate_user) preserve the invariant that Active status implies both
verification flags, but the admin status update does not, as the
counterexample shows. -/
theorem c1_verification_preserves_active_invariant (u : User) (vt : String)
    (h : UserActiveInvariant u) :
    UserActiveInvariant (verify_user_account u vt) ∧
    UserActiveInvariant ((reactivate_user u).2) := by
  constructor
  · unfold UserActiveInvariant at *
    by_cases h1 : vt = "email" ∨ vt = "both" <;>
      by_cases h2 : vt = "phone" ∨ vt = "both" <;>
      cases hev : u.email_verified <;>
      cases hpv : u.phone_verified <;>
      simp_all [verify_user_account]
  · unfold UserActiveInvariant
    cases hev : u.email_verified <;> cases hpv : u.phone_verified <;>
      simp [reactivate_user, User.is_verified, hev, hpv]

/-- C1 witness: the amended preservation applied to the pending unverified
fixture with verification type both. -/
theorem c1_verification_preserves_witness :
    UserActiveInvariant (verify_user_account baseUser "both") ∧
    UserActiveInvariant ((reactivate_user baseUser).2) :=
  c1_verification_preserves_active_invariant baseUser "both" (by decide)

/-! Claim C5: idempotence of soft deletion. -/

/-- Helper: after the soft-delete write, the active-scoped animal lookup for
that id finds nothing. -/
theorem find_none_after_setInactive (l : List Animal) (aid now : Nat) :
    (l.map (fun x => if x.id = aid then { x with is_active := false, deleted_at := some now } else x)).find?
      (fun a => decide (a.id = aid) && a.is_active) = none := by
  induction l with
  | nil => rfl
  | cons h t ih =>
    by_cases hid : h.id = aid
    · simp [List.find?, hid, ih]
    · simp [List.find?, hid, ih]

/-- Helper: the DB-level form of find_none_after_setInactive. -/
theorem findActiveAnimal_after_deactivate (db : DB) (aid now : Nat) :
    findActiveAnimal
      (db.updateAnimal aid
        (fun x => { x with is_active := false, deleted_at := some now })) aid = none :=
  find_none_after_setInactive db.animals aid now

/-- C5 counterexample: deactivating the already-deactivated animal does not
return a success outcome: the active-scoped lookup misses the inactive row, so
the second call returns the Animal-not-found error (though the state is
unchanged), contradicting the claimed no-op success for animals. -/
theorem c5_animal_redeactivation_counterexample :
    (deactivate_animal 10 5 dbAnimal).1 =
      .ok { baseAnimal with is_active := false, deleted_at := some 5 } ∧
    deactivate_animal 10 6 (deactivate_animal 10 5 dbAnimal).2 =
      (.err "Animal not found", (deactivate_animal 10 5 dbAnimal).2) := by
  exact ⟨by decide, by decide⟩

/-- C5 (amended): user deactivation is an idempotent no-op success, but
re-deactivating an already-inactive animal returns the Animal-not-found error
rather than a success; in both cases the observable state after the second
call equals the state after the first. -/
theorem c5_deactivate_idempotence (u : User) (db db2 : DB) (aid n1 n2 n3 : Nat)
    (hmiss : findActiveAnimal db aid = none) :
    deactivate_user ((deactivate_user u).2) = deactivate_user u ∧
    deactivate_animal aid n3 db = (.err "Animal not found", db) ∧
    (deactivate_animal aid n2 (deactivate_animal aid n1 db2).2).2 =
      (deactivate_animal aid n1 db2).2 := by
  refine ⟨rfl, by simp [deactivate_animal, hmiss], ?_⟩
  rcases h : findActiveAnimal db2 aid with _ | a
  · simp [deactivate_animal, h]
  · simp only [deactivate_animal, h]
    simp [findActiveAnimal_after_deactivate]

/-- C5 witness: the amended statement evaluated on the inactive-animal fixture
for the error part and the active-animal fixture for the state part. -/
theorem c5_deactivate_idempotence_witness :
    deactivate_user ((deactivate_user baseUser).2) = deactivate_user baseUser ∧
    deactivate_animal 10 7 dbAnimalInactive = (.err "Animal not found", dbAnimalInactive) ∧
    (deactivate_animal 10 8 (deactivate_animal 10 7 dbAnimal).2).2 =
      (deactivate_animal 10 7 dbAnimal).2 :=
  c5_deactivate_idempotence baseUser dbAnimalInactive dbAnimal 10 7 8 7 (by decide)

/-! Claim C6: password-reset responses must not reveal account existence. -/

/-- C6: both a reset request for a missing email and one for an existing
active account return success, but the two responses differ in message and in
payload shape, so the response does reveal whether the account exists; OTP
issuance indeed does not occur for the missing email and does occur for the
existing one. This exhibits the failing input for the information-hiding
requirement stated by the spec and by the source comment about preventing
email enumeration. -/
theorem c6_forgot_password_leaks_existence :
    (forgot_password [activeUser] (some "b@y.com") "111111" 50).1.success = true ∧
    (forgot_password [activeUser] (some "a@x.com") "111111" 50).1.success = true ∧
    (forgot_password [activeUser] (some "b@y.com") "111111" 50).1.message ≠
      (forgot_password [activeUser] (some "a@x.com") "111111" 50).1.message ∧
    (forgot_password [activeUser] (some "b@y.com") "111111" 50).1.hasData ≠
      (forgot_password [activeUser] (some "a@x.com") "111111" 50).1.hasData ∧
    (forgot_password [activeUser] (some "b@y.com") "111111" 50).2 = [activeUser] ∧
    (forgot_password [activeUser] (some "a@x.com") "111111" 50).2 =
      [{ activeUser with otp_code := some "111111", otp_created_at := some 50 }] := by
  refine ⟨rfl, rfl, by decide, by decide, by decide, by decide⟩

/-! Claim C2: a farmer acting on an animal owned by a different farmer is
denied on every operation, with no state change. -/

/-- C2: for a farmer actor and an active animal owned by a different farmer,
the read, update, assign-vet and delete endpoints each return the 403
Access-denied response and leave the store unchanged. -/
theorem c2_farmer_cross_access_forbidden (db : DB) (actor : User) (a : Animal)
    (hrole : actor.user_type = UserRole.farmer)
    (hfind : findActiveAnimal db a.id = some a)
    (hown : a.farmer_id ≠ actor.id)
    (d : Option UpdateData) (vid : Option Nat) (now : Nat) :
    get_animal db actor a.id = ⟨false, "Access denied", false, 403⟩ ∧
    update_animal db actor a.id d = (⟨false, "Access denied", false, 403⟩, db) ∧
    assign_veterinarian_endpoint db actor a.id vid =
      (⟨false, "Access denied", false, 403⟩, db) ∧
    delete_animal db actor a.id now = (⟨false, "Access denied", false, 403⟩, db) := by
  refine ⟨?_, ?_, ?_, ?_⟩ <;>
    simp [get_animal, update_animal, assign_veterinarian_endpoint, delete_animal,
      hfind, hrole, hown]

/-- C2 witness: the second farmer denied on all four operations against the
first farmer animal. -/
theorem c2_farmer_cross_access_witness :
    get_animal dbAnimal otherFarmer 10 = ⟨false, "Access denied", false, 403⟩ ∧
    update_animal dbAnimal otherFarmer 10 none =
      (⟨false, "Access denied", false, 403⟩, dbAnimal) ∧
    assign_veterinarian_endpoint dbAnimal otherFarmer 10 none =
      (⟨false, "Access denied", false, 403⟩, dbAnimal) ∧
    delete_animal dbAnimal otherFarmer 10 9 =
      (⟨false, "Access denied", false, 403⟩, dbAnimal) :=
  c2_farmer_cross_access_forbidden dbAnimal otherFarmer baseAnimal rfl
    (by decide) (by decide) none none 9

/-! Claim C8: the AssignVeterinarian service contract. -/

/-- C8: assigning a veterinarian fails with the not-found outcome when the
animal or the veterinarian is missing or soft-deleted, fails with the
not-active outcome when the veterinarian exists but is not in Active status,
and otherwise writes the assignment; moreover any successful assignment
implies the looked-up veterinarian was Active, so only Active veterinarians
receive new assignments. -/
theorem c8_assign_veterinarian_contract (db : DB) (aid vid : Nat) :
    (findActiveAnimal db aid = none →
      assign_veterinarian aid vid db = (.err "Animal not found", db)) ∧
    (∀ a, findActiveAnimal db aid = some a → findActiveVet db vid = none →
      assign_veterinarian aid vid db = (.err "Veterinarian not found", db)) ∧
    (∀ a v, findActiveAnimal db aid = some a → findActiveVet db vid = some v →
      v.status ≠ UserStatus.active →
      assign_veterinarian aid vid db = (.err "Veterinarian is not active", db)) ∧
    (∀ a v, findActiveAnimal db aid = some a → findActiveVet db vid = some v →
      v.status = UserStatus.active →
      assign_veterinarian aid vid db =
        (.ok { a with veterinarian_id := some vid },
         db.updateAnimal aid (fun x => { x with veterinarian_id := some vid }))) ∧
    (∀ a2 db2, assign_veterinarian aid vid db = (.ok a2, db2) →
      ∃ v, findActiveVet db vid = some v ∧ v.status = UserStatus.active) := by
  refine ⟨?_, ?_, ?_, ?_, ?_⟩
  · intro h
    simp [assign_veterinarian, h]
  · intro a ha hv
    simp [assign_veterinarian, ha, hv]
  · intro a v ha hv hs
    simp [assign_veterinarian, ha, hv, hs]
  · intro a v ha hv hs
    simp [assign_veterinarian, ha, hv, hs]
  · intro a2 db2 h
    unfold assign_veterinarian at h
    rcases ha : findActiveAnimal db aid with _ | a
    · rw [ha] at h
      simp at h
    · rw [ha] at h
      rcases hv : findActiveVet db vid with _ | v
      · rw [hv] at h
        simp at h
      · by_cases hs : v.status = UserStatus.active
        · exact ⟨v, by simp [hv], hs⟩
        · rw [hv] at h
          simp [hs] at h

/-- C8 witness: all four branches of the contract on a concrete store holding
one animal, one Active veterinarian and one Pending veterinarian. -/
theorem c8_assign_veterinarian_witness :
    assign_veterinarian 99 3 dbVets = (.err "Animal not found", dbVets) ∧
    assign_veterinarian 10 99 dbVets = (.err "Veterinarian not found", dbVets) ∧
    assign_veterinarian 10 4 dbVets = (.err "Veterinarian is not active", dbVets) ∧
    assign_veterinarian 10 3 dbVets =
      (.ok { baseAnimal with veterinarian_id := some 3 },
       dbVets.updateAnimal 10 (fun x => { x with veterinarian_id := some 3 })) := by
  refine ⟨?_, ?_, ?_, ?_⟩
  · exact (c8_assign_veterinarian_contract dbVets 99 3).1 (by decide)
  · exact (c8_assign_veterinarian_contract dbVets 10 99).2.1 baseAnimal
      (by decide) (by decide)
  · exact (c8_assign_veterinarian_contract dbVets 10 4).2.2.1 baseAnimal pendingVet
      (by decide) (by decide) (by decide)
  · exact (c8_assign_veterinarian_contract dbVets 10 3).2.2.2.1 baseAnimal vetUser
      (by decide) (by decide) rfl

/-! Claim C7: per-farmer versus global uniqueness of the animal tag. -/

/-- C7: the first COW001 creation for farmer 1 succeeds; farmer 2 then
attempting its own COW001 is not a success as the claim requires: the insert
collides with the schema-level global UNIQUE constraint on animals.tag_id at
commit, so the service returns the generic creation failure with the store
unchanged, even though the service-level duplicate check (scoped to the same
farmer, with the already-exists-for-this-farmer message, shown by the last
conjunct) only intends per-farmer uniqueness. -/
theorem c7_cross_farmer_tag_rejected_by_schema :
    (∃ a1, (create_animal cowData 1 100 dbTwoFarmers).1 = .ok a1 ∧
      a1.farmer_id = 1 ∧ a1.tag_id = "COW001") ∧
    create_animal cowData 2 101 (create_animal cowData 1 100 dbTwoFarmers).2 =
      (.err "Failed to create animal: UNIQUE constraint failed: animals.tag_id",
       (create_animal cowData 1 100 dbTwoFarmers).2) ∧
    (create_animal cowData 1 102 (create_animal cowData 1 100 dbTwoFarmers).2).1 =
      .err "An animal with this tag ID already exists for this farmer" := by
  exact ⟨⟨cowAnimal1, by decide, by decide, by decide⟩, by decide, by decide⟩

/-! Claim C3: the health-record creation and the animal-status update are
transactionally consistent. -/

/-- Helper: find? over a map that rewrites exactly the rows matching the id
while preserving id and the active flag returns the rewritten first match. -/
theorem find_after_update (l : List Animal) (aid : Nat) (f : Animal → Animal)
    (hid : ∀ x, (f x).id = x.id) (hact : ∀ x, (f x).is_active = x.is_active)
    (a : Animal) (h : l.find? (fun x => decide (x.id = aid) && x.is_active) = some a) :
    (l.map (fun x => if x.id = aid then f x else x)).find?
      (fun x => decide (x.id = aid) && x.is_active) =
      some (if a.id = aid then f a else a) := by
  induction l with
  | nil => simp at h
  | cons hd t ih =>
    by_cases hp : (decide (hd.id = aid) && hd.is_active) = true
    · rw [@List.find?_cons_of_pos _ (fun x => decide (x.id = aid) && x.is_active)
        hd t hp] at h
      injection h with h2
      subst h2
      have hpm : (decide ((if hd.id = aid then f hd else hd).id = aid) &&
          (if hd.id = aid then f hd else hd).is_active) = true := by
        by_cases hi : hd.id = aid
        · simp only [if_pos hi, hid, hact]
          exact hp
        · simp only [if_neg hi]
          exact hp
      rw [List.map_cons,
        @List.find?_cons_of_pos _ (fun x => decide (x.id = aid) && x.is_active)
          (if hd.id = aid then f hd else hd)
          (t.map fun x => if x.id = aid then f x else x) hpm]
    · rw [@List.find?_cons_of_neg _ (fun x => decide (x.id = aid) && x.is_active)
        hd t hp] at h
      have hpm : ¬((decide ((if hd.id = aid then f hd else hd).id = aid) &&
          (if hd.id = aid then f hd else hd).is_active) = true) := by
        by_cases hi : hd.id = aid
        · intro hc
          refine hp ?_
          rw [if_pos hi] at hc
          rw [← hid hd, ← hact hd]
          exact hc
        · intro hc
          refine hp ?_
          rw [if_neg hi] at hc
          exact hc
      rw [List.map_cons,
        @List.find?_cons_of_neg _ (fun x => decide (x.id = aid) && x.is_active)
          (if hd.id = aid then f hd else hd)
          (t.map fun x => if x.id = aid then f x else x) hpm]
      exact ih h

/-- Helper: the active-scoped lookup after the condition-and-checkup write
returns the original row with exactly those two fields rewritten. -/
theorem findActiveAnimal_after_condition_update (db : DB) (aid : Nat)
    (cond : HealthStatus) (cd : Nat) (a : Animal)
    (h : findActiveAnimal db aid = some a) :
    findActiveAnimal
      (db.updateAnimal aid
        (fun x => { x with health_status := cond, last_checkup_date := some cd })) aid =
      some { a with health_status := cond, last_checkup_date := some cd } := by
  have haid : a.id = aid := by
    have hp := List.find?_some h
    simp at hp
    exact hp.1
  have h2 := find_after_update db.animals aid
    (fun x => { x with health_status := cond, last_checkup_date := some cd })
    (fun _ => rfl) (fun _ => rfl) a h
  rw [if_pos haid] at h2
  exact h2

/-- Helper: every error return of create_health_record leaves the store
untouched. -/
theorem create_health_record_err_preserves (data : HealthRecordData)
    (rec today fresh : Nat) (cok : Bool) (db : DB) :
    ∀ m db2, create_health_record data rec today fresh cok db = (.err m, db2) →
      db2 = db := by
  intro m db2 h
  unfold create_health_record at h
  repeat' split at h
  all_goals first
    | (rcases hoc2 : Option.map some (HealthStatus.ofString (lowerAscii (data.overall_condition.getD ""))) with _ | oc <;> rw [hoc2] at h <;> simp_all)
    | simp_all

/-- C3: for a creation request whose body carries a parseable non-empty
overall_condition, a successful call returns with the commit flag set, the
created record carries that condition and the requested checkup date, the
record is prepended to the store, and the parent animal in the same resulting
store has health_status equal to the condition and last_checkup_date equal to
the record checkup date; any failing call leaves the store exactly as it was,
and a failed commit in particular fails the call with the store unchanged. -/
theorem c3_health_record_transactional (data : HealthRecordData)
    (rec today fresh : Nat) (cok : Bool) (db : DB) (aid : Nat) (a : Animal)
    (s : String) (cond : HealthStatus)
    (haid : data.animal_id = some aid)
    (ha : findActiveAnimal db aid = some a)
    (hcd : data.checkup_date ≠ some none)
    (hncd : data.next_checkup_date ≠ some none)
    (hoc : data.overall_condition = some s) (hs : s ≠ "")
    (hparse : HealthStatus.ofString (lowerAscii s) = some cond) :
    (∀ r db2, create_health_record data rec today fresh cok db = (.ok r, db2) →
      cok = true ∧
      r.overall_condition = some cond ∧
      r.checkup_date = (data.checkup_date.getD none).getD today ∧
      db2.health_records = r :: db.health_records ∧
      findActiveAnimal db2 aid =
        some { a with health_status := cond, last_checkup_date := some r.checkup_date }) ∧
    (∀ m db2, create_health_record data rec today fresh cok db = (.err m, db2) →
      db2 = db) ∧
    (cok = false →
      create_health_record data rec today fresh cok db =
        (.err "Failed to create health record: commit failed", db)) := by
  refine ⟨?_, create_health_record_err_preserves data rec today fresh cok db, ?_⟩
  · intro r db2 h
    cases cok with
    | false =>
      simp [create_health_record, haid, ha, hcd, hncd, hoc, strTruthy, hs, hparse] at h
    | true =>
      simp only [create_health_record, haid, ha] at h
      rw [if_neg hcd, if_neg hncd] at h
      simp only [hoc, strTruthy, hs] at h
      simp [hparse, hs, Prod.ext_iff] at h
      obtain ⟨hr, hdb⟩ := h
      subst hdb
      subst hr
      exact ⟨rfl, rfl, rfl, rfl,
        findActiveAnimal_after_condition_update _ aid cond _ a ha⟩
  · intro hcf
    subst hcf
    simp [create_health_record, haid, ha, hcd, hncd, hoc, strTruthy, hs, hparse]

/-- C3 witness: the sick-record scenario on the concrete store, both the
successful transactional call and the failed-commit rollback. -/
theorem c3_health_record_witness :
    (true = true ∧
      hrC3.overall_condition = some HealthStatus.sick ∧
      hrC3.checkup_date = 20 ∧
      (create_health_record sickData 3 20 500 true dbAnimal).2.health_records =
        hrC3 :: dbAnimal.health_records ∧
      findActiveAnimal (create_health_record sickData 3 20 500 true dbAnimal).2 10 =
        some { baseAnimal with
                health_status := HealthStatus.sick,
                last_checkup_date := some hrC3.checkup_date }) ∧
    create_health_record sickData 3 20 500 false dbAnimal =
      (.err "Failed to create health record: commit failed", dbAnimal) := by
  constructor
  · exact (c3_health_record_transactional sickData 3 20 500 true dbAnimal 10 baseAnimal
      "sick" HealthStatus.sick rfl (by decide) (by decide) (by decide) rfl
      (by decide) rfl).1 hrC3
      (create_health_record sickData 3 20 500 true dbAnimal).2 (by decide)
  · exact (c3_health_record_transactional sickData 3 20 500 false dbAnimal 10 baseAnimal
      "sick" HealthStatus.sick rfl (by decide) (by decide) (by decide) rfl
      (by decide) rfl).2.2 rfl

end Farm
